import Mathlib

/-!
Verification of the bookkeeper repository layer and budget widget.

The generic `SQLiteRepository` maps plain data objects (identified by an
integer `pk` field) to rows of a table; the budget widget derives per-week
and per-month views of a canonical per-day budget amount.
-/

namespace Bookkeeper

/-- A field value stored in a row: Python ints, strings and floats
(floats modelled as rationals). -/
inductive Value where
  | int (n : Int)
  | str (s : String)
  | rat (q : ℚ)
  deriving DecidableEq, Repr

/-- A plain data object: a `pk` identifier plus named fields,
as introspected by the generic repository. -/
structure Obj where
  pk : Int
  fields : List (String × Value)
  deriving DecidableEq, Repr

/-- Errors a repository operation can signal. `validation` models Python
`ValueError` (precondition failures), `notFound` models `KeyError`;
the two constructors are distinct, as the spec requires. -/
inductive RepoError where
  | validation
  | notFound
  deriving DecidableEq, Repr

/-- The argument passed to `add`: either a proper data object, or
something that is not an object with the expected fields (the test
suite passes the integer `0`). -/
inductive AddArg where
  | obj (o : Obj)
  | nonObject
  deriving DecidableEq, Repr

/-- Repository state: the stored rows in insertion order, plus the
store's identifier counter (identifiers are assigned exclusively by the
store on creation). -/
structure RepoState where
  rows : List Obj
  counter : Nat
  deriving DecidableEq, Repr

namespace SQLiteRepository

/-- The empty repository. -/
def empty : RepoState := ⟨[], 0⟩

/-- Modelled from the spec: `src/bookkeeper/repository/sqlite_repository.py`
is not under `src/`. `add(object)` fails with a validation error if the
argument is not an object or already carries a non-zero identifier;
otherwise it persists the object's declared fields, assigns the
store-generated identifier back onto the object and returns it.
On error nothing is persisted (the state is returned only on success). -/
def add (st : RepoState) (a : AddArg) : Except RepoError (RepoState × Int × Obj) :=
  match a with
  | .nonObject => .error .validation
  | .obj o =>
    if o.pk ≠ 0 then .error .validation
    else
      let i : Int := (st.counter : Int) + 1
      let o' : Obj := ⟨i, o.fields⟩
      .ok (⟨st.rows ++ [o'], st.counter + 1⟩, i, o')

/-- Modelled from the spec: `get(identifier)` returns the matching object
or an explicit "not found" result (`none`); it never raises for a
missing key. -/
def get (st : RepoState) (i : Int) : Option Obj :=
  st.rows.find? (fun r => r.pk == i)

/-- A row matches a filter when its fields equal every key/value pair of
the filter (conjunctive match). -/
def matchesFilter (flt : List (String × Value)) (o : Obj) : Bool :=
  flt.all (fun kv => decide (o.fields.lookup kv.1 = some kv.2))

/-- Modelled from the spec: `get_all(filter?)` returns all stored objects
in insertion order, optionally restricted to those whose fields exactly
match every field/value equality constraint of the filter. -/
def get_all (st : RepoState) (flt : Option (List (String × Value))) : List Obj :=
  match flt with
  | none => st.rows
  | some f => st.rows.filter (matchesFilter f)

/-- Modelled from the spec: `update(object)` fails with a validation error
if the object's identifier is unset (a never-persisted object cannot be
updated); otherwise it overwrites the stored row at that identifier with
the object's fields. -/
def update (st : RepoState) (o : Obj) : Except RepoError RepoState :=
  if o.pk = 0 then .error .validation
  else .ok ⟨st.rows.map (fun r => if r.pk = o.pk then o else r), st.counter⟩

/-- Modelled from the spec: `delete(identifier)` fails with a distinct
not-found error if no row exists at that identifier; otherwise it removes
the row. -/
def delete (st : RepoState) (i : Int) : Except RepoError RepoState :=
  if st.rows.any (fun r => r.pk == i) then
    .ok ⟨st.rows.filter (fun r => r.pk != i), st.counter⟩
  else .error .notFound

/-- Modelled from the spec: `delete_all()` clears all rows for the entity
type. -/
def delete_all (st : RepoState) : RepoState :=
  ⟨[], st.counter⟩

/-- Well-formedness of a repository state: every stored identifier is at
most the store's counter (true of every state reachable by the
operations, since identifiers are assigned from the counter). -/
def WF (st : RepoState) : Prop :=
  ∀ r ∈ st.rows, r.pk ≤ (st.counter : Int)

instance (st : RepoState) : Decidable (WF st) := by
  unfold WF; infer_instance

end SQLiteRepository

/-- Modelled from the spec: `src/bookkeeper/models/budget.py` is not under
`src/`. A Budget is a plain attribute bag with a primary-key identifier
and a period amount; the widget code reads and writes its `amount` field
(the canonical per-day amount, modelled as a rational). -/
structure Budget where
  pk : Int
  amount : ℚ
  deriving DecidableEq, Repr

/-- The text of an editable table cell, abstracted by what Python
`float(text)` does with it: either it parses to a number, or parsing
raises `ValueError`. -/
inductive CellText where
  | num (q : ℚ)
  | invalid
  deriving DecidableEq, Repr

/-- Python `round(x, 2)`: rounding to 2 decimal places. -/
def round2 (q : ℚ) : ℚ := ((round (q * 100) : ℤ) : ℚ) / 100

/-- State of a `LimitDayItem` cell: the budget it holds and its
displayed text. -/
structure LimitDayItem where
  bgt : Budget
  text : CellText
  deriving DecidableEq, Repr

/-- `LimitDayItem.get_value`: returns the converted cell value, or
`none` if conversion is impossible. -/
def LimitDayItem.get_value (it : LimitDayItem) : Option ℚ :=
  match it.text with
  | .num q => some q
  | .invalid => none

/-- `LimitDayItem.update`: sets a new budget and displays its per-day
amount rounded to 2 decimal places. -/
def LimitDayItem.update (_it : LimitDayItem) (b : Budget) : LimitDayItem :=
  ⟨b, .num (round2 b.amount)⟩

/-- `LimitDayItem.get`: returns the held budget. -/
def LimitDayItem.get (it : LimitDayItem) : Budget := it.bgt

/-- State of a `LimitWeekItem` cell. -/
structure LimitWeekItem where
  bgt : Budget
  text : CellText
  deriving DecidableEq, Repr

/-- `LimitWeekItem.get_value`: the parsed cell value divided by 7, or
`none` if conversion is impossible. -/
def LimitWeekItem.get_value (it : LimitWeekItem) : Option ℚ :=
  match it.text with
  | .num q => some (q / 7)
  | .invalid => none

/-- `LimitWeekItem.update`: sets a new budget and displays its amount
times 7, rounded to 2 decimal places. -/
def LimitWeekItem.update (_it : LimitWeekItem) (b : Budget) : LimitWeekItem :=
  ⟨b, .num (round2 (b.amount * 7))⟩

/-- `LimitWeekItem.get`: returns the held budget. -/
def LimitWeekItem.get (it : LimitWeekItem) : Budget := it.bgt

/-- State of a `LimitMonthItem` cell. -/
structure LimitMonthItem where
  bgt : Budget
  text : CellText
  deriving DecidableEq, Repr

/-- `LimitMonthItem.get_value`: the parsed cell value divided by 30, or
`none` if conversion is impossible. -/
def LimitMonthItem.get_value (it : LimitMonthItem) : Option ℚ :=
  match it.text with
  | .num q => some (q / 30)
  | .invalid => none

/-- `LimitMonthItem.update`: sets a new budget and displays its amount
times 30, rounded to 2 decimal places. -/
def LimitMonthItem.update (_it : LimitMonthItem) (b : Budget) : LimitMonthItem :=
  ⟨b, .num (round2 (b.amount * 30))⟩

/-- `LimitMonthItem.get`: returns the held budget. -/
def LimitMonthItem.get (it : LimitMonthItem) : Budget := it.bgt

/-- An editable budget item of the widget's table, one of the three
`AbstractItem` implementations. -/
inductive BgtItem where
  | day (it : LimitDayItem)
  | week (it : LimitWeekItem)
  | month (it : LimitMonthItem)
  deriving DecidableEq, Repr

/-- Dispatch of `get_value` over the three item classes. -/
def BgtItem.get_value : BgtItem → Option ℚ
  | .day it => it.get_value
  | .week it => it.get_value
  | .month it => it.get_value

/-- Dispatch of `get` over the three item classes. -/
def BgtItem.get : BgtItem → Budget
  | .day it => it.get
  | .week it => it.get
  | .month it => it.get

/-- Python `bgt_item.get().amount = value`: mutates the `amount` field of
the budget held by the item. -/
def BgtItem.setAmount : BgtItem → ℚ → BgtItem
  | .day it, v => .day ⟨⟨it.bgt.pk, v⟩, it.text⟩
  | .week it, v => .week ⟨⟨it.bgt.pk, v⟩, it.text⟩
  | .month it, v => .month ⟨⟨it.bgt.pk, v⟩, it.text⟩

/-- Observable effects of `BudgetWidget.edit_bgt_event`: the edited item
afterwards, the argument `bgt_modifier` was called with (if it was), and
whether the error message box was shown. -/
structure EditEffects where
  item : BgtItem
  modifierArg : Option Budget
  errorShown : Bool
  deriving DecidableEq, Repr

namespace BudgetWidget

/-- `BudgetWidget.edit_bgt_event`: if the edited item's value does not
convert, show an error box and change nothing; otherwise write the value
into the item's budget amount and call `bgt_modifier` with that budget.
(The concluding `update_budget` display refresh does not change the
budget.) -/
def edit_bgt_event (it : BgtItem) : EditEffects :=
  match it.get_value with
  | none => ⟨it, none, true⟩
  | some v =>
    let it' := it.setAmount v
    ⟨it', some it'.get, false⟩

end BudgetWidget

/-- The model type a repository is constructed for. -/
inductive ModelType where
  | category
  | budget
  | expense
  deriving DecidableEq, Repr

/-- A constructed `SQLiteRepository` instance, as the factory builds it:
the database file it points at and the model type it serves. -/
structure RepoHandle where
  db_file : String
  model : ModelType
  deriving DecidableEq, Repr

namespace RepositoryFactory

/-- `RepositoryFactory.get_ctg`: returns an `SQLiteRepository` for
`Category` on `databases/ui_client.db`. -/
def get_ctg : RepoHandle := ⟨"databases/ui_client.db", .category⟩

/-- `RepositoryFactory.get_bgt`: returns an `SQLiteRepository` for
`Budget` on `databases/ui_client.db`. -/
def get_bgt : RepoHandle := ⟨"databases/ui_client.db", .budget⟩

/-- `RepositoryFactory.get_exp`: returns an `SQLiteRepository` for
`Expense` on `databases/ui_client.db`. -/
def get_exp : RepoHandle := ⟨"databases/ui_client.db", .expense⟩

end RepositoryFactory

namespace SQLiteRepository

/-- Claim C1: for every valid object `o` whose identifier is unset
(`pk = 0`), `add o` persists `o`'s declared fields, assigns a
store-generated identifier `i > 0` onto the object, returns it, and a
subsequent `get i` returns an object equal to the updated `o`. Stated
for well-formed repository states (all states reachable by the
operations). -/
theorem add_spec (st : RepoState) (o : Obj) (hwf : WF st) (h : o.pk = 0) :
    ∃ st' i o', add st (.obj o) = .ok (st', i, o') ∧ 0 < i ∧
      o'.pk = i ∧ o'.fields = o.fields ∧ get st' i = some o' := by
  refine ⟨⟨st.rows ++ [⟨(st.counter : Int) + 1, o.fields⟩], st.counter + 1⟩,
    (st.counter : Int) + 1, ⟨(st.counter : Int) + 1, o.fields⟩, ?_, by omega, rfl, rfl, ?_⟩
  · simp [add, h]
  · unfold get
    rw [List.find?_append]
    have h1 : st.rows.find? (fun r => r.pk == (st.counter : Int) + 1) = none := by
      rw [List.find?_eq_none]
      intro r hr
      have := hwf r hr
      simp only [beq_iff_eq]
      omega
    rw [h1]
    simp [List.find?]

/-- Witness for C1: adding a fresh object to the empty repository. -/
theorem add_spec_witness :
    ∃ st' i o', add ⟨[], 0⟩ (.obj ⟨0, [("name", .str "TEST")]⟩) = .ok (st', i, o') ∧
      0 < i ∧ o'.pk = i ∧ o'.fields = [("name", .str "TEST")] ∧ get st' i = some o' :=
  add_spec ⟨[], 0⟩ ⟨0, [("name", .str "TEST")]⟩ (by decide) rfl

/-- Claim C2: `get_all` with a filter returns exactly the stored objects
whose fields equal every key/value pair of the filter, and `get_all`
without a filter returns all stored objects in insertion order. -/
theorem get_all_spec (st : RepoState) (flt : List (String × Value)) (o : Obj) :
    get_all st none = st.rows ∧
    (o ∈ get_all st (some flt) ↔
      o ∈ st.rows ∧ ∀ kv ∈ flt, o.fields.lookup kv.1 = some kv.2) := by
  refine ⟨rfl, ?_⟩
  unfold get_all
  rw [List.mem_filter]
  unfold matchesFilter
  rw [List.all_eq_true]
  simp

/-- Claim C3: `add` fails with a validation error when the object already
carries a non-zero identifier, and likewise when the argument is not an
object with the expected fields; in both cases no new state is produced,
so nothing is persisted. -/
theorem add_validation (st : RepoState) (o : Obj) (h : o.pk ≠ 0) :
    add st (.obj o) = .error .validation ∧ add st .nonObject = .error .validation := by
  exact ⟨by simp [add, h], rfl⟩

/-- Witness for C3: adding an object with `pk = 1` and adding a
non-object both fail with a validation error. -/
theorem add_validation_witness :
    add empty (.obj ⟨1, []⟩) = .error .validation ∧
    add empty .nonObject = .error .validation :=
  add_validation empty ⟨1, []⟩ (by decide)

/-- Claim C4: `update` fails with a validation error when the object's
identifier is unset; when the identifier is set and a row is stored at
it, after `update` the stored row at that identifier equals the object
(same identifier and fields). -/
theorem update_spec (st : RepoState) (o : Obj) :
    (o.pk = 0 → update st o = .error .validation) ∧
    (o.pk ≠ 0 → ∀ r, get st o.pk = some r →
      ∃ st', update st o = .ok st' ∧ get st' o.pk = some o) := by
  constructor
  · intro h
    simp [update, h]
  · intro hpk r hr
    refine ⟨⟨st.rows.map (fun x => if x.pk = o.pk then o else x), st.counter⟩, ?_, ?_⟩
    · simp [update, hpk]
    · unfold get at hr ⊢
      rw [List.find?_map]
      have hcomp : ((fun x : Obj => x.pk == o.pk) ∘ (fun x => if x.pk = o.pk then o else x))
          = fun x : Obj => x.pk == o.pk := by
        funext x
        by_cases hx : x.pk = o.pk
        · simp [hx]
        · simp [hx]
      rw [hcomp, hr]
      have hrpk : r.pk = o.pk := by
        have := List.find?_some hr
        simpa using this
      simp [hrpk]

/-- Witness for C4: updating the fields of the stored row with
identifier 1. -/
theorem update_spec_witness :
    ∃ st', update ⟨[⟨1, [("name", .str "TEST")]⟩], 1⟩ ⟨1, [("name", .str "X")]⟩ = .ok st' ∧
      get st' 1 = some ⟨1, [("name", .str "X")]⟩ :=
  (update_spec ⟨[⟨1, [("name", .str "TEST")]⟩], 1⟩ ⟨1, [("name", .str "X")]⟩).2
    (by decide) ⟨1, [("name", .str "TEST")]⟩ (by decide)

/-- Claim C5: `delete i` fails with a not-found error, distinct from the
validation error, when no row is stored at identifier `i`; for a stored
identifier it removes the row, so `get i` afterwards is absent. -/
theorem delete_spec (st : RepoState) (i : Int) :
    (get st i = none → delete st i = .error .notFound) ∧
    (∀ r, get st i = some r → ∃ st', delete st i = .ok st' ∧ get st' i = none) ∧
    RepoError.notFound ≠ RepoError.validation := by
  refine ⟨?_, ?_, by decide⟩
  · intro h
    unfold get at h
    rw [List.find?_eq_none] at h
    have hc : ¬ st.rows.any (fun r => r.pk == i) = true := by
      rw [List.any_eq_true]
      rintro ⟨x, hx, hpx⟩
      exact h x hx hpx
    simp [delete, hc]
  · intro r hr
    unfold get at hr
    have hp := List.find?_some hr
    have hc : st.rows.any (fun x => x.pk == i) = true := by
      rw [List.any_eq_true]
      exact ⟨r, List.mem_of_find?_eq_some hr, hp⟩
    refine ⟨⟨st.rows.filter (fun x => x.pk != i), st.counter⟩, ?_, ?_⟩
    · simp [delete, hc]
    · unfold get
      rw [List.find?_eq_none]
      intro x hx
      rw [List.mem_filter] at hx
      simpa using hx.2

/-- Witness for C5: deleting identifier -1 from the empty repository
fails with a not-found error; deleting a stored identifier removes it. -/
theorem delete_spec_witness :
    delete ⟨[], 0⟩ (-1) = .error .notFound ∧
    ∃ st', delete ⟨[⟨1, []⟩], 1⟩ 1 = .ok st' ∧ get st' 1 = none :=
  ⟨(delete_spec ⟨[], 0⟩ (-1)).1 (by decide),
   (delete_spec ⟨[⟨1, []⟩], 1⟩ 1).2.1 ⟨1, []⟩ (by decide)⟩

/-- Claim C6: for every identifier with no matching stored object, `get`
returns an explicit absent result (`none`); it is a total function into
`Option`, so it never raises. -/
theorem get_missing (st : RepoState) (i : Int) :
    get st i = none ↔ ∀ r ∈ st.rows, r.pk ≠ i := by
  unfold get
  rw [List.find?_eq_none]
  simp

end SQLiteRepository

/-- Claim C7: the week and month views scale the canonical per-day
amount: after `update b` the week cell shows `b.amount * 7` and the
month cell shows `b.amount * 30`, each rounded to 2 decimal places, and
an edited cell value `v` converts back to a per-day amount as `v / 7`
(week) or `v / 30` (month). -/
theorem limit_scaling (b : Budget) (itW : LimitWeekItem) (itM : LimitMonthItem) (v : ℚ) :
    (itW.update b).text = .num (round2 (b.amount * 7)) ∧
    (itM.update b).text = .num (round2 (b.amount * 30)) ∧
    LimitWeekItem.get_value ⟨itW.bgt, .num v⟩ = some (v / 7) ∧
    LimitMonthItem.get_value ⟨itM.bgt, .num v⟩ = some (v / 30) :=
  ⟨rfl, rfl, rfl, rfl⟩

/-- Claim C9: `get_value` on each of the three item classes is total: it
returns the parsed number (divided by 7 for the week item and by 30 for
the month item) when the cell text parses as a float, and `none`
otherwise; it never raises. -/
theorem get_value_total (b : Budget) (q : ℚ) :
    LimitDayItem.get_value ⟨b, .num q⟩ = some q ∧
    LimitDayItem.get_value ⟨b, .invalid⟩ = none ∧
    LimitWeekItem.get_value ⟨b, .num q⟩ = some (q / 7) ∧
    LimitWeekItem.get_value ⟨b, .invalid⟩ = none ∧
    LimitMonthItem.get_value ⟨b, .num q⟩ = some (q / 30) ∧
    LimitMonthItem.get_value ⟨b, .invalid⟩ = none :=
  ⟨rfl, rfl, rfl, rfl, rfl, rfl⟩

/-- Claim C10: in `edit_bgt_event`, when `get_value` returns `none` the
item's budget is unchanged and `bgt_modifier` is not called; when it
returns a number, the budget's amount is set to that number and
`bgt_modifier` is called with the updated budget. -/
theorem edit_bgt_event_spec (it : BgtItem) :
    (it.get_value = none →
      (BudgetWidget.edit_bgt_event it).item.get = it.get ∧
      (BudgetWidget.edit_bgt_event it).modifierArg = none) ∧
    (∀ v, it.get_value = some v →
      ((BudgetWidget.edit_bgt_event it).item.get).amount = v ∧
      (BudgetWidget.edit_bgt_event it).modifierArg =
        some ((BudgetWidget.edit_bgt_event it).item.get)) := by
  constructor
  · intro h
    simp [BudgetWidget.edit_bgt_event, h]
  · intro v h
    have hset : (BgtItem.setAmount it v).get.amount = v := by
      cases it with
      | day i => rfl
      | week i => rfl
      | month i => rfl
    simp [BudgetWidget.edit_bgt_event, h]
    exact hset

/-- Witness for C10: an unparsable week cell leaves the budget alone and
calls no modifier; a week cell reading 14 sets the per-day amount to 2. -/
theorem edit_bgt_event_spec_witness :
    ((BudgetWidget.edit_bgt_event (.week ⟨⟨1, 5⟩, .invalid⟩)).item.get = BgtItem.get (.week ⟨⟨1, 5⟩, .invalid⟩) ∧
      (BudgetWidget.edit_bgt_event (.week ⟨⟨1, 5⟩, .invalid⟩)).modifierArg = none) ∧
    ((BudgetWidget.edit_bgt_event (.week ⟨⟨1, 5⟩, .num 14⟩)).item.get).amount = 2 :=
  ⟨(edit_bgt_event_spec (.week ⟨⟨1, 5⟩, .invalid⟩)).1 rfl,
   ((edit_bgt_event_spec (.week ⟨⟨1, 5⟩, .num 14⟩)).2 2
     (by simp only [BgtItem.get_value, LimitWeekItem.get_value, Option.some.injEq]
         norm_num)).1⟩

/-- Claim C8: the repository factory constructs one repository instance
per model type (Category, Budget, Expense), and all three point at the
same database file. -/
theorem repository_factory_spec :
    RepositoryFactory.get_ctg.model = ModelType.category ∧
    RepositoryFactory.get_bgt.model = ModelType.budget ∧
    RepositoryFactory.get_exp.model = ModelType.expense ∧
    RepositoryFactory.get_ctg.db_file = RepositoryFactory.get_bgt.db_file ∧
    RepositoryFactory.get_bgt.db_file = RepositoryFactory.get_exp.db_file :=
  ⟨rfl, rfl, rfl, rfl, rfl⟩

end Bookkeeper
